import Mathlib

/-!
Shallow embedding of the AutoTruth scoring engine
(`src/engine/lifecycle_scorer.py`, `src/engine/offset_detector.py`,
`src/engine/nlp_engine.py`, `src/engine/scoring.py`, and the EV-domain
detector of `src/app.py`), together with proofs of the specification
claims about it.

Numbers are modelled as rationals (`ℚ`); Python `round(x, n)` is modelled
as exact decimal rounding half-to-even (the rounding `round` specifies);
Python string operations (`.lower()`, substring `in`, slicing) are
modelled over `String`/`List Char`; Python dicts are modelled as
association lists in insertion order, with `.get` defaults made explicit;
the `re.search` calls are modelled by a small regular-expression matcher
with the five numeric patterns transcribed.  Fallible dict indexing
(`counts[...]` in `get_claim_quality_ratio`) is modelled with `Option`.
-/

namespace AutoTruth

/-- Python `str.lower()` (ASCII inputs). -/
def lowerStr (s : String) : String := String.mk (s.data.map Char.toLower)

/-- The first characters of the second list are exactly the first list. -/
def startsWithL : List Char → List Char → Bool
  | [], _ => true
  | _ :: _, [] => false
  | a :: as, b :: bs => a == b && startsWithL as bs

/-- Python substring test `needle in hay` on character lists. -/
def containsSubL (needle : List Char) : List Char → Bool
  | [] => startsWithL needle []
  | c :: rest => startsWithL needle (c :: rest) || containsSubL needle rest

/-- Python substring test `needle in hay` on strings. -/
def containsSub (needle hay : String) : Bool :=
  containsSubL needle.toList hay.toList

/-- Round a rational to the nearest integer, ties to even
(the rounding Python's `round` specifies). -/
def roundHalfEven (q : ℚ) : ℤ :=
  let f := q.floor
  let frac := q - (f : ℚ)
  if frac < 1 / 2 then f
  else if 1 / 2 < frac then f + 1
  else if f % 2 = 0 then f else f + 1

/-- Python `round(q, n)`: round to `n` decimal places, ties to even. -/
def roundTo (n : ℕ) (q : ℚ) : ℚ :=
  (roundHalfEven (q * (10 : ℚ) ^ n) : ℚ) / (10 : ℚ) ^ n

/-! ### `src/engine/offset_detector.py` -/

/-- `OFFSET_THRESHOLD = 30`: % above which offset dependency triggers a penalty. -/
def OFFSET_THRESHOLD : ℚ := 30

/-- `QUALITY_SCORES` table of `offset_detector.py`. -/
def QUALITY_SCORES : List (String × ℚ) :=
  [("Gold Standard", 90), ("VCS", 65), ("Unverified", 25), ("None", 100)]

/-- `QUALITY_DESCRIPTIONS` table of `offset_detector.py`. -/
def QUALITY_DESCRIPTIONS : List (String × String) :=
  [("Gold Standard", "High-integrity offset — verified by Gold Standard foundation with co-benefits."),
   ("VCS", "Moderate-integrity offset — Verified Carbon Standard, widely recognized but variable quality."),
   ("Unverified", "Low-integrity offset — no recognized third-party verification. High greenwash risk."),
   ("None", "No carbon offsets used. All emission reductions are real, operational, and technology-driven.")]

/-- The dict returned by `analyze_offsets`. -/
structure OffsetAnalysis where
  offset_dependency_pct : ℚ
  offset_quality : String
  quality_score : ℚ
  quality_description : String
  dependency_penalty : ℚ
  risk_level : String
  risk_label : String
  threshold : ℚ
  exceeds_threshold : Bool
deriving Repr, DecidableEq

/-- `analyze_offsets` of `src/engine/offset_detector.py`. -/
def analyze_offsets (offset_dependency_pct : ℚ) (offset_quality : String) :
    OffsetAnalysis :=
  let quality_score := (QUALITY_SCORES.lookup offset_quality).getD 25
  let dependency_penalty : ℚ :=
    if offset_quality = "None" then 0
    else if OFFSET_THRESHOLD < offset_dependency_pct then
      let excess := offset_dependency_pct - OFFSET_THRESHOLD
      let quality_multiplier : ℚ :=
        if 80 ≤ quality_score then 1 else if 60 ≤ quality_score then 3/2 else 5/2
      min (roundTo 1 (excess / 10 * quality_multiplier * 3)) 20
    else 0
  let risks : String × String :=
    if offset_quality = "None" ∨ (offset_dependency_pct < 15 ∧ 65 ≤ quality_score) then
      ("LOW", "✅ Low Offset Risk")
    else if offset_dependency_pct < OFFSET_THRESHOLD ∧ 65 ≤ quality_score then
      ("MODERATE", "⚠️ Moderate Offset Risk")
    else if offset_quality = "Unverified" ∨ 50 < offset_dependency_pct then
      ("HIGH", "🚨 High Greenwash Risk")
    else
      ("MODERATE", "⚠️ Moderate Offset Risk")
  { offset_dependency_pct := offset_dependency_pct
    offset_quality := offset_quality
    quality_score := quality_score
    quality_description := (QUALITY_DESCRIPTIONS.lookup offset_quality).getD "Unknown offset type."
    dependency_penalty := dependency_penalty
    risk_level := risks.1
    risk_label := risks.2
    threshold := OFFSET_THRESHOLD
    exceeds_threshold :=
      decide (OFFSET_THRESHOLD < offset_dependency_pct) && !(offset_quality == "None") }

/-! ### `src/engine/lifecycle_scorer.py` -/

/-- `PILLAR_WEIGHTS` of `lifecycle_scorer.py` (dict in insertion order). -/
def PILLAR_WEIGHTS : List (String × ℚ) :=
  [("raw_materials", 20/100), ("manufacturing", 20/100), ("supply_chain", 15/100),
   ("use_phase", 20/100), ("end_of_life", 15/100), ("offsets", 10/100)]

/-- `compute_weighted_score`: weighted total of the six pillar scores,
rounded to 2 decimals (missing pillars default to 0). -/
def compute_weighted_score (pillar_scores : List (String × ℚ)) : ℚ :=
  roundTo 2 (PILLAR_WEIGHTS.foldl
    (fun total pw => total + ((pillar_scores.lookup pw.1).getD 0) * pw.2) 0)

/-- One per-pillar entry of the dict returned by `compute_drift`. -/
structure DriftEntry where
  current : ℚ
  previous : ℚ
  delta : ℚ
  trend : String
deriving Repr, DecidableEq

/-- `compute_drift` of `lifecycle_scorer.py`: year-over-year drift per pillar. -/
def compute_drift (current previous : List (String × ℚ)) :
    List (String × DriftEntry) :=
  PILLAR_WEIGHTS.map (fun pw =>
    let cur := (current.lookup pw.1).getD 0
    let prev := (previous.lookup pw.1).getD 0
    let delta := cur - prev
    (pw.1,
      { current := cur
        previous := prev
        delta := roundTo 1 delta
        trend := if 2 < delta then "improved"
                 else if delta < -2 then "declined" else "stable" }))

/-! ### `src/engine/nlp_engine.py` -/

/-- Regular expressions as used by `NUMERIC_PATTERNS`: character classes,
literals, concatenation, alternation, `?` on a subexpression and `*` on a
character class. -/
inductive RE where
  | cls (p : Char → Bool)
  | lit (s : String)
  | seq (a b : RE)
  | alt (a b : RE)
  | opt (a : RE)
  | starCls (p : Char → Bool)

/-- Match zero or more characters of class `p`, then continue with `k`. -/
def starMatchCls (p : Char → Bool) : List Char → (List Char → Bool) → Bool
  | [], k => k []
  | c :: rest, k => k (c :: rest) || (p c && starMatchCls p rest k)

/-- Match `r` at the start of the input, continuing with `k` on the rest
(backtracking over all alternatives). -/
def matchRE : RE → List Char → (List Char → Bool) → Bool
  | .cls _, [], _ => false
  | .cls p, c :: rest, k => p c && k rest
  | .lit s, input, k =>
      if startsWithL s.toList input then k (input.drop s.length) else false
  | .seq a b, input, k => matchRE a input (fun rest => matchRE b rest k)
  | .alt a b, input, k => matchRE a input k || matchRE b input k
  | .opt a, input, k => matchRE a input k || k input
  | .starCls p, input, k => starMatchCls p input k

/-- `re.search`: try to match `r` starting at every position. -/
def reSearchAux (r : RE) : List Char → Bool
  | [] => matchRE r [] (fun _ => true)
  | c :: rest => matchRE r (c :: rest) (fun _ => true) || reSearchAux r rest

/-- `re.search(r, s)` as a Boolean: some substring of `s` matches `r`. -/
def reSearch (r : RE) (s : String) : Bool := reSearchAux r s.toList

/-- Python `\s` on ASCII text. -/
def isSpaceCh (c : Char) : Bool :=
  c == ' ' || c == '\t' || c == '\n' || c == '\r' ||
  c == Char.ofNat 11 || c == Char.ofNat 12

/-- `\d+` -/
def digits1 : RE := .seq (.cls Char.isDigit) (.starCls Char.isDigit)

/-- `\d*` -/
def digits0 : RE := .starCls Char.isDigit

/-- `\s*` -/
def spaces0 : RE := .starCls isSpaceCh

/-- `\s+` -/
def spaces1 : RE := .seq (.cls isSpaceCh) (.starCls isSpaceCh)

/-- Alternation of a nonempty list of regular expressions. -/
def altOf (r : RE) : List RE → RE
  | [] => r
  | x :: xs => .alt r (altOf x xs)

/-- `NUMERIC_PATTERNS` of `nlp_engine.py`, lower-cased (the code searches
with `re.IGNORECASE`; the matcher here is applied to lower-cased text). -/
def NUMERIC_PATTERNS : List RE :=
  [ .seq digits1 (.seq (.opt (.lit ".")) (.seq digits0 (.seq spaces0 (.lit "%")))),
    .seq digits1 (.seq (.opt (.lit ".")) (.seq digits0 (.seq spaces0
      (altOf (.seq (.lit "tonne") (.opt (.lit "s")))
        [.seq (.lit "ton") (.opt (.lit "s")), .lit "kg", .lit "kwh", .lit "mwh",
         .lit "gwh", .lit "gco2", .lit "km", .lit "mi", .lit "g/km"])))),
    .seq (altOf (.lit "reduced")
        [.lit "decreased", .lit "improved", .lit "increased", .lit "achieved", .lit "recovered"])
      (.seq spaces1 (.seq (.lit "by") (.seq spaces1 digits1))),
    .seq digits1 (.seq spaces0 (altOf (.lit "million") [.lit "billion", .lit "thousand"])),
    .seq (altOf (.lit "zero") [.lit "100%"])
      (.seq spaces1 (altOf (.lit "cobalt") [.lit "offset", .lit "renewable", .lit "recycl"])) ]

/-- `VAGUE_PHRASES` of `nlp_engine.py`. -/
def VAGUE_PHRASES : List String :=
  ["committed to", "strives to", "works toward", "we believe", "eco-friendly",
   "sustainable future", "green", "responsible sourcing", "better for the planet",
   "environmentally friendly", "we aim", "we aspire", "under assessment",
   "being established", "plans to", "intends to", "dedicated to", "passionate about",
   "world-class", "best-in-class", "industry-leading", "cutting-edge"]

/-- `OFFSET_PHRASES` of `nlp_engine.py`. -/
def OFFSET_PHRASES : List String :=
  ["carbon neutral", "carbon offset", "offset", "carbon credit", "net zero via",
   "REC", "renewable energy certificate", "forest conservation", "nature-based",
   "carbon removal", "inset", "compensate", "carbon-neutral"]

/-- `OFFSET_QUALITY_MAP` of `nlp_engine.py` (dict in insertion order). -/
def OFFSET_QUALITY_MAP : List (String × String) :=
  [("gold standard", "Gold Standard"), ("vcs", "VCS"),
   ("verified carbon standard", "VCS"), ("redd+", "VCS"),
   ("forest conservation", "Unverified"), ("rec", "Unverified"),
   ("renewable energy certificate", "Unverified")]

/-- The dict returned by `classify_claim`. -/
structure Classification where
  type : String
  offset_quality : Option String
  confidence : ℚ
deriving Repr, DecidableEq

/-- `classify_claim` of `nlp_engine.py`: label one claim text as
NUMERIC / VAGUE / OFFSET_BACKED. -/
def classify_claim (text : String) : Classification :=
  let text_lower := lowerStr text
  match OFFSET_PHRASES.find? (fun phrase => containsSub (lowerStr phrase) text_lower) with
  | some _ =>
      let quality :=
        match OFFSET_QUALITY_MAP.find? (fun kv => containsSub kv.1 text_lower) with
        | some kv => kv.2
        | none => "Unverified"
      { type := "OFFSET_BACKED"
        offset_quality := some quality
        confidence := roundTo 2 (85/100 +
          (if ["gold standard", "verified"].any (fun p => containsSub p text_lower)
           then 10/100 else 0)) }
  | none =>
      if NUMERIC_PATTERNS.any (fun r => reSearch r text_lower) then
        { type := "NUMERIC"
          offset_quality := none
          confidence := roundTo 2 (88/100 + (if containsSub "%" text then 7/100 else 0)) }
      else
        let vague_score :=
          (VAGUE_PHRASES.filter (fun phrase => containsSub phrase text_lower)).length
        { type := "VAGUE"
          offset_quality := none
          confidence := roundTo 2 (min (72/100 + (vague_score : ℚ) * (4/100)) (95/100)) }

/-- A claim record as consumed by `compute_lts` /
`get_claim_quality_ratio`: a dict with a `"text"` field, a `"type"`
field, and an optional `"verified"` field defaulting to `False`. -/
structure Claim where
  text : String
  type : String
  verified : Bool := false
deriving Repr, DecidableEq

/-- The dict returned by `get_claim_quality_ratio` (for a nonempty claim
list; the empty case returns the three ratios only, modelled here with
zero counts). -/
structure ClaimRatioData where
  numeric : ℚ
  vague : ℚ
  offset : ℚ
  numeric_count : ℕ
  vague_count : ℕ
  offset_count : ℕ
  total : ℕ
deriving Repr, DecidableEq

/-- `get_claim_quality_ratio` of `nlp_engine.py`.  The Python body indexes
`counts[claim.get("type", "VAGUE")]`, which raises `KeyError` when a
claim's type is none of NUMERIC / VAGUE / OFFSET_BACKED; that error branch
is modelled by `none`. -/
def get_claim_quality_ratio (claims : List Claim) : Option ClaimRatioData :=
  if claims.length = 0 then
    some { numeric := 0, vague := 0, offset := 0,
           numeric_count := 0, vague_count := 0, offset_count := 0, total := 0 }
  else do
    let counts ← claims.foldlM (m := Option)
      (fun (c : ℕ × ℕ × ℕ) claim =>
        if claim.type = "NUMERIC" then some (c.1 + 1, c.2.1, c.2.2)
        else if claim.type = "VAGUE" then some (c.1, c.2.1 + 1, c.2.2)
        else if claim.type = "OFFSET_BACKED" then some (c.1, c.2.1, c.2.2 + 1)
        else none)
      (0, 0, 0)
    let total := claims.length
    some { numeric := roundTo 3 ((counts.1 : ℚ) / total)
           vague := roundTo 3 ((counts.2.1 : ℚ) / total)
           offset := roundTo 3 ((counts.2.2 : ℚ) / total)
           numeric_count := counts.1
           vague_count := counts.2.1
           offset_count := counts.2.2
           total := total }

/-! ### `src/engine/scoring.py` -/

/-- `REGULATORY_BONUSES` of `scoring.py` (dict in insertion order). -/
def REGULATORY_BONUSES : List (String × ℚ) :=
  [("GRI", 2), ("CSRD", 3), ("SEC_Climate", 5/2), ("TCFD", 3/2)]

/-- One entry of `RISK_TIERS`: threshold, label, color, description. -/
structure RiskTier where
  threshold : ℚ
  label : String
  color : String
  description : String
deriving Repr, DecidableEq

/-- `RISK_TIERS` of `scoring.py`. -/
def RISK_TIERS : List RiskTier :=
  [⟨80, "Transparent", "#00e676", "✅ High Transparency — claims are well-substantiated and disclosure is comprehensive."⟩,
   ⟨60, "Moderate", "#ffeb3b", "⚠️ Moderate Transparency — some pillars are well-documented, but gaps remain."⟩,
   ⟨40, "Opaque", "#ff9800", "🟠 Opaque Disclosures — significant claim vagueness and lifecycle gaps detected."⟩,
   ⟨0, "Greenwashing", "#f44336", "🚨 Greenwashing Detected — disclosures are primarily vague, offset-dependent, or misleading."⟩]

/-- `REWRITE_SUGGESTIONS` of `scoring.py` (dict in insertion order). -/
def REWRITE_SUGGESTIONS : List (String × String) :=
  [("committed to", "State the specific target (e.g., 'committed to reducing Scope 1 emissions by 45% by 2030 vs. 2019 baseline')"),
   ("strives to", "Replace with a measurable commitment and timeline."),
   ("eco-friendly", "Quantify the impact (e.g., 'reduces lifecycle CO₂ by X% vs. equivalent ICE vehicle')."),
   ("sustainable future", "Disclose specific emission reduction targets with base year and verification methodology."),
   ("responsible sourcing", "Reference a third-party audit or certification (e.g., IRMA, RMI Responsible Minerals)."),
   ("under assessment", "Provide current scope and expected reporting timeline."),
   ("being established", "Disclose the partner, target recovery rate, and projected timeline."),
   ("plans to", "Commit to a specific, time-bound, measurable target."),
   ("dedicated to", "Replace with a quantified target and accountability mechanism.")]

/-- `suggest_rewrite` of `scoring.py`. -/
def suggest_rewrite (claim_text : String) : String :=
  let claim_lower := lowerStr claim_text
  match REWRITE_SUGGESTIONS.find? (fun ts => containsSub ts.1 claim_lower) with
  | some ts => ts.2
  | none => "Replace vague language with specific metrics, timelines, and verified data sources."

/-- `compute_regulatory_bonus` of `scoring.py`: sum the bonuses of the
standards flagged true (unknown standards add 0), capped at 8. -/
def compute_regulatory_bonus (alignment : List (String × Bool)) : ℚ :=
  min (alignment.foldl
    (fun bonus sm =>
      if sm.2 then bonus + ((REGULATORY_BONUSES.lookup sm.1).getD 0) else bonus) 0) 8

/-- The dict returned by `classify_risk`. -/
structure Risk where
  label : String
  color : String
  description : String
deriving Repr, DecidableEq

/-- `classify_risk` of `scoring.py`: first tier whose threshold the score
reaches (the final fallback of the Python code is unreachable because the
last threshold is 0 and scores are clamped, but it is modelled anyway). -/
def classify_risk (score : ℚ) : Risk :=
  match RISK_TIERS.find? (fun t => t.threshold ≤ score) with
  | some t => { label := t.label, color := t.color, description := t.description }
  | none => { label := "Greenwashing", color := "#f44336",
              description := "🚨 Greenwashing Detected — disclosures are primarily vague, offset-dependent, or misleading." }

/-- The dict returned by `compute_investor_esg_index`. -/
structure EsgIndex where
  score : ℚ
  rating : String
  interpretation : String
deriving Repr, DecidableEq

/-- `compute_investor_esg_index` of `scoring.py`. -/
def compute_investor_esg_index (lts_score : ℚ) (offset_risk : String) : EsgIndex :=
  let offset_penalty_map : List (String × ℚ) := [("LOW", 0), ("MODERATE", -5), ("HIGH", -15)]
  let adjusted := max 0 (lts_score + (offset_penalty_map.lookup offset_risk).getD 0)
  let ri : String × String :=
    if 75 ≤ adjusted then ("AAA", "Minimal ESG disclosure risk")
    else if 60 ≤ adjusted then ("AA", "Low-moderate ESG risk")
    else if 45 ≤ adjusted then ("BBB", "Moderate ESG risk — gaps in lifecycle reporting")
    else if 30 ≤ adjusted then ("BB", "Elevated ESG risk — significant disclosure weaknesses")
    else ("CCC", "High ESG risk — greenwashing exposure")
  { score := roundTo 1 adjusted, rating := ri.1, interpretation := ri.2 }

/-- The per-claim fingerprint entry appended by `compute_lts` (the claim
dict copied, plus `impact_score` and `rewrite_suggestion`). -/
structure FingerprintedClaim where
  claim : Claim
  impact_score : ℤ
  rewrite_suggestion : Option String
deriving Repr, DecidableEq

/-- `company_data` as consumed by `compute_lts`; each field default is the
`.get` default used by the Python code. -/
structure CompanyData where
  name : Option String := none
  model : Option String := none
  report_year : Option ℕ := none
  claims : List Claim := []
  pillar_scores : List (String × ℚ) := []
  prior_year_scores : List (String × ℚ) := []
  offset_dependency : ℚ := 0
  offset_quality : String := "Unverified"
  regulatory_alignment : List (String × Bool) := []
  grid_carbon_intensity : ℚ := 400
deriving Repr, DecidableEq

/-- The complete scoring breakdown returned by `compute_lts`
(`breakdown` subdict inlined as the five `*_breakdown`-labelled fields). -/
structure LtsResult where
  company : Option String
  model : Option String
  report_year : Option ℕ
  lts : ℚ
  risk : Risk
  pillar_weighted_base : ℚ
  claim_quality_adjustment : ℚ
  offset_penalty : ℚ
  regulatory_bonus : ℚ
  grid_penalty : ℚ
  pillar_scores : List (String × ℚ)
  prior_year_scores : List (String × ℚ)
  claim_ratio : ClaimRatioData
  claims : List FingerprintedClaim
  offset_analysis : OffsetAnalysis
  regulatory_alignment : List (String × Bool)
  grid_carbon_intensity : ℚ
  esg_investor_index : EsgIndex
deriving Repr, DecidableEq

/-- Step 5 of `compute_lts`: the grid carbon adjustment. -/
def grid_penalty_of (grid_intensity : ℚ) : ℚ :=
  if 500 < grid_intensity then -2
  else if 400 < grid_intensity then -1
  else 0

/-- `compute_lts` of `scoring.py`: the full LTS pipeline for one company.
`none` models the Python `KeyError` branch of `get_claim_quality_ratio`. -/
def compute_lts (company_data : CompanyData) : Option LtsResult :=
  match get_claim_quality_ratio company_data.claims with
  | none => none
  | some claim_ratio =>
    let pillar_total := compute_weighted_score company_data.pillar_scores
    let claim_quality_adjustment :=
      roundTo 2 (claim_ratio.numeric * 8 - claim_ratio.vague * 6)
    let offset_analysis :=
      analyze_offsets company_data.offset_dependency company_data.offset_quality
    let offset_penalty := offset_analysis.dependency_penalty
    let regulatory_bonus := compute_regulatory_bonus company_data.regulatory_alignment
    let grid_penalty := grid_penalty_of company_data.grid_carbon_intensity
    let raw_lts := pillar_total + claim_quality_adjustment - offset_penalty
      + regulatory_bonus + grid_penalty
    let lts := roundTo 1 (max 0 (min 100 raw_lts))
    let fingerprinted_claims := company_data.claims.map (fun claim =>
      let fp_score : ℤ :=
        if claim.type = "VAGUE" then -8
        else if claim.type = "OFFSET_BACKED" ∧ company_data.offset_quality = "Unverified" then -12
        else if claim.type = "NUMERIC" ∧ claim.verified then 5
        else 0
      { claim := claim
        impact_score := fp_score
        rewrite_suggestion :=
          if claim.type = "VAGUE" then some (suggest_rewrite claim.text) else none })
    some
      { company := company_data.name
        model := company_data.model
        report_year := company_data.report_year
        lts := lts
        risk := classify_risk lts
        pillar_weighted_base := roundTo 1 pillar_total
        claim_quality_adjustment := claim_quality_adjustment
        offset_penalty := -offset_penalty
        regulatory_bonus := regulatory_bonus
        grid_penalty := grid_penalty
        pillar_scores := company_data.pillar_scores
        prior_year_scores := company_data.prior_year_scores
        claim_ratio := claim_ratio
        claims := fingerprinted_claims
        offset_analysis := offset_analysis
        regulatory_alignment := company_data.regulatory_alignment
        grid_carbon_intensity := company_data.grid_carbon_intensity
        esg_investor_index := compute_investor_esg_index lts offset_analysis.risk_level }

/-! ### EV-domain detector of `src/app.py` -/

/-- `EV_DOMAIN_TERMS["core"]`. -/
def EV_CORE_TERMS : List String :=
  ["electric vehicle", "electric vehicles", "ev", "battery electric",
   "plug-in", "charging", "battery pack", "kwh/100km", "kwh/100 mi"]

/-- `EV_DOMAIN_TERMS["vehicle"]`. -/
def EV_VEHICLE_TERMS : List String :=
  ["vehicle", "vehicles", "automotive", "car", "truck", "model y", "model 3",
   "fleet", "drivetrain", "range"]

/-- `EV_DOMAIN_TERMS["supply"]`. -/
def EV_SUPPLY_TERMS : List String :=
  ["lithium", "nickel", "cobalt", "battery cell", "gigafactory",
   "scope 3", "supplier"]

/-- `EV_AUTO_ANCHORS`. -/
def EV_AUTO_ANCHORS : List String :=
  ["ev manufacturer", "electric vehicle manufacturer", "vehicle production",
   "vehicle deliveries", "vehicle sales", "passenger vehicle", "automaker",
   "automobile", "automotive oem", "battery electric vehicle", "bev"]

/-- `KNOWN_EV_COMPANIES`. -/
def KNOWN_EV_COMPANIES : List String :=
  ["tesla", "rivian", "byd", "volkswagen", "vw", "hyundai", "kia", "ford",
   "general motors", "gm", "mercedes", "bmw", "audi", "nio", "xpeng", "lucid", "polestar"]

/-- `NON_EV_SIGNAL_TERMS`. -/
def NON_EV_SIGNAL_TERMS : List String :=
  ["iphone", "ipad", "macbook", "mac", "apple watch", "airpods", "data center",
   "packaging", "consumer electronics"]

/-- `content = f"{filename} {text[:180000]}".lower()`. -/
def evContent (text filename : String) : String :=
  lowerStr (filename ++ " " ++ String.mk (text.data.take 180000))

/-- The terms of `ts` found in `content` (Python list comprehension with
substring test). -/
def termHits (ts : List String) (content : String) : List String :=
  ts.filter (fun t => containsSub t content)

/-- The weighted EV relevance score of `_detect_ev_domain`. -/
def evRelevanceScore (content : String) : ℤ :=
  ((termHits EV_CORE_TERMS content).length : ℤ) * 3
  + ((termHits EV_VEHICLE_TERMS content).length : ℤ) * 2
  + ((termHits EV_SUPPLY_TERMS content).length : ℤ)
  + ((termHits EV_AUTO_ANCHORS content).length : ℤ) * 4
  + ((termHits KNOWN_EV_COMPANIES content).length : ℤ) * 3
  - ((termHits NON_EV_SIGNAL_TERMS content).length : ℤ) * 2

/-- The dict returned by `_detect_ev_domain`. -/
structure DomainDetection where
  is_ev_domain : Bool
  ev_relevance_score : ℤ
  matched_terms : List String
  non_ev_terms : List String
  recommendation : String
deriving Repr, DecidableEq

/-- `_detect_ev_domain` of `src/app.py`. -/
def detect_ev_domain (text filename : String) : DomainDetection :=
  let content := evContent text filename
  let score := evRelevanceScore content
  let has_ev_specific_anchor :=
    1 ≤ (termHits EV_AUTO_ANCHORS content).length
      ∨ 1 ≤ (termHits KNOWN_EV_COMPANIES content).length
  let is_ev_domain := has_ev_specific_anchor ∧ 12 ≤ score
  { is_ev_domain := decide is_ev_domain
    ev_relevance_score := score
    matched_terms :=
      ((termHits EV_CORE_TERMS content) ++ (termHits EV_VEHICLE_TERMS content)
        ++ (termHits EV_SUPPLY_TERMS content) ++ (termHits EV_AUTO_ANCHORS content)
        ++ (termHits KNOWN_EV_COMPANIES content)).take 12
    non_ev_terms := (termHits NON_EV_SIGNAL_TERMS content).take 8
    recommendation :=
      if is_ev_domain then
        "EV domain confirmed. You can continue with full EV transparency scoring."
      else
        "This file may not be EV-focused. Re-upload an EV report or continue anyway." }

/-- The all-defaults company record (every `.get` default of
`compute_lts` in effect), used as a concrete evaluation point. -/
def defaultCompany : CompanyData := {}

/-- The result of `compute_lts defaultCompany`, spelled out. -/
def defaultLtsResult : LtsResult :=
  { company := none
    model := none
    report_year := none
    lts := 0
    risk := { label := "Greenwashing", color := "#f44336",
              description := "🚨 Greenwashing Detected — disclosures are primarily vague, offset-dependent, or misleading." }
    pillar_weighted_base := 0
    claim_quality_adjustment := 0
    offset_penalty := 0
    regulatory_bonus := 0
    grid_penalty := 0
    pillar_scores := []
    prior_year_scores := []
    claim_ratio := { numeric := 0, vague := 0, offset := 0,
                     numeric_count := 0, vague_count := 0, offset_count := 0, total := 0 }
    claims := []
    offset_analysis := { offset_dependency_pct := 0
                         offset_quality := "Unverified"
                         quality_score := 25
                         quality_description := "Low-integrity offset — no recognized third-party verification. High greenwash risk."
                         dependency_penalty := 0
                         risk_level := "HIGH"
                         risk_label := "🚨 High Greenwash Risk"
                         threshold := 30
                         exceeds_threshold := false }
    regulatory_alignment := []
    grid_carbon_intensity := 400
    esg_investor_index := { score := 0, rating := "CCC",
                            interpretation := "High ESG risk — greenwashing exposure" } }

/-- A company with every pillar score 100, no claims, all four regulatory
standards met, and grid intensity at the default 400 (the raw aggregate is
108 before clamping). -/
def fullMarksCompany : CompanyData :=
  { claims := []
    pillar_scores := [("raw_materials", 100), ("manufacturing", 100), ("supply_chain", 100),
                      ("use_phase", 100), ("end_of_life", 100), ("offsets", 100)]
    offset_dependency := 0
    offset_quality := "None"
    regulatory_alignment := [("GRI", true), ("CSRD", true), ("SEC_Climate", true), ("TCFD", true)]
    grid_carbon_intensity := 400 }

end AutoTruth

/-! ## Proofs -/

namespace AutoTruth

theorem ratFloor_eq_intFloor (q : ℚ) : q.floor = ⌊q⌋ :=
  le_antisymm (Int.le_floor.mpr (Rat.le_floor.mp (le_refl _)))
    (Rat.le_floor.mpr (Int.floor_le q))

theorem roundHalfEven_ge_floor (q : ℚ) : ⌊q⌋ ≤ roundHalfEven q := by
  unfold roundHalfEven
  dsimp only
  rw [ratFloor_eq_intFloor]
  split
  · exact le_refl _
  · split
    · exact le_of_lt (lt_add_one _)
    · split
      · exact le_refl _
      · exact le_of_lt (lt_add_one _)

theorem roundHalfEven_le_floor_add_one (q : ℚ) : roundHalfEven q ≤ ⌊q⌋ + 1 := by
  unfold roundHalfEven
  dsimp only
  rw [ratFloor_eq_intFloor]
  split
  · exact le_of_lt (lt_add_one _)
  · split
    · exact le_refl _
    · split
      · exact le_of_lt (lt_add_one _)
      · exact le_refl _

/-- An integer lower bound survives round-half-even. -/
theorem le_roundHalfEven {m : ℤ} {q : ℚ} (h : (m : ℚ) ≤ q) :
    m ≤ roundHalfEven q :=
  le_trans (Int.le_floor.mpr h) (roundHalfEven_ge_floor q)

/-- An integer upper bound survives round-half-even. -/
theorem roundHalfEven_le {m : ℤ} {q : ℚ} (h : q ≤ (m : ℚ)) :
    roundHalfEven q ≤ m := by
  have hf : ⌊q⌋ ≤ m := by
    have := Int.floor_mono h
    simpa using this
  rcases lt_or_eq_of_le hf with hlt | heq
  · exact le_trans (roundHalfEven_le_floor_add_one q) hlt
  · have hq : q = (m : ℚ) := by
      have h1 : (m : ℚ) ≤ q := by
        have := Int.floor_le q
        rw [heq] at this
        exact this
      exact le_antisymm h h1
    have hfloor : ⌊q⌋ = m := heq
    unfold roundHalfEven
    dsimp only
    rw [ratFloor_eq_intFloor, hfloor, hq]
    simp

theorem roundTo_nonneg {q : ℚ} (n : ℕ) (h : 0 ≤ q) : 0 ≤ roundTo n q := by
  unfold roundTo
  apply div_nonneg _ (by positivity)
  have : (0 : ℤ) ≤ roundHalfEven (q * (10 : ℚ) ^ n) := by
    apply le_roundHalfEven
    push_cast
    positivity
  exact_mod_cast this

theorem roundTo_le_of_le {q : ℚ} {m : ℤ} (n : ℕ) (h : q ≤ (m : ℚ)) :
    roundTo n q ≤ (m : ℚ) := by
  unfold roundTo
  rw [div_le_iff₀ (by positivity)]
  have hb : q * (10 : ℚ) ^ n ≤ ((m * 10 ^ n : ℤ) : ℚ) := by
    push_cast
    have hp : (0 : ℚ) ≤ (10 : ℚ) ^ n := by positivity
    exact mul_le_mul_of_nonneg_right h hp
  have := roundHalfEven_le hb
  calc (roundHalfEven (q * (10 : ℚ) ^ n) : ℚ) ≤ ((m * 10 ^ n : ℤ) : ℚ) := by
        exact_mod_cast this
    _ = (m : ℚ) * (10 : ℚ) ^ n := by push_cast; ring

end AutoTruth

unseal Rat.add Rat.mul Rat.inv Rat.sub

namespace AutoTruth

/-- C5: for every offset_dependency_pct in [0,100], `analyze_offsets` with
quality tier "None" returns dependency_penalty 0 and risk_level "LOW". -/
theorem analyze_offsets_none_tier (d : ℚ) (h0 : 0 ≤ d) (h1 : d ≤ 100) :
    (analyze_offsets d "None").dependency_penalty = 0
    ∧ (analyze_offsets d "None").risk_level = "LOW" := by
  unfold analyze_offsets
  simp

theorem analyze_offsets_none_tier_witness :
    (0 : ℚ) ≤ 50 ∧ (50 : ℚ) ≤ 100
    ∧ (analyze_offsets 50 "None").dependency_penalty = 0
    ∧ (analyze_offsets 50 "None").risk_level = "LOW" :=
  ⟨by norm_num, by norm_num,
   (analyze_offsets_none_tier 50 (by norm_num) (by norm_num)).1,
   (analyze_offsets_none_tier 50 (by norm_num) (by norm_num)).2⟩

/-- C6: for every quality tier other than "None" and every dependency
percentage d in [0,100]: the penalty is 0 for d ≤ 30, equals
`min(round((d-30)/10 * m * 3, 1), 20)` for d > 30 — where m is 1.0 when the
looked-up quality score is ≥ 80, 1.5 when ≥ 60, else 2.5 — and always lies
in [0, 20]. -/
theorem analyze_offsets_penalty_formula (q : String) (d : ℚ) (hq : q ≠ "None")
    (h0 : 0 ≤ d) (h1 : d ≤ 100) :
    (d ≤ 30 → (analyze_offsets d q).dependency_penalty = 0)
    ∧ (30 < d → (analyze_offsets d q).dependency_penalty =
        min (roundTo 1 ((d - 30) / 10 *
          (if 80 ≤ (QUALITY_SCORES.lookup q).getD 25 then 1
           else if 60 ≤ (QUALITY_SCORES.lookup q).getD 25 then 3/2 else 5/2) * 3)) 20)
    ∧ 0 ≤ (analyze_offsets d q).dependency_penalty
    ∧ (analyze_offsets d q).dependency_penalty ≤ 20 := by
  have hpen : (analyze_offsets d q).dependency_penalty =
      if 30 < d then
        min (roundTo 1 ((d - 30) / 10 *
          (if 80 ≤ (QUALITY_SCORES.lookup q).getD 25 then 1
           else if 60 ≤ (QUALITY_SCORES.lookup q).getD 25 then 3/2 else 5/2) * 3)) 20
      else 0 := by
    unfold analyze_offsets OFFSET_THRESHOLD
    simp only [if_neg hq]
  by_cases h30 : 30 < d
  · rw [hpen, if_pos h30]
    have hmul : (0 : ℚ) <
        (if 80 ≤ (QUALITY_SCORES.lookup q).getD 25 then 1
         else if 60 ≤ (QUALITY_SCORES.lookup q).getD 25 then 3/2 else 5/2) := by
      split
      · norm_num
      · split
        · norm_num
        · norm_num
    have harg : (0 : ℚ) ≤ (d - 30) / 10 *
        (if 80 ≤ (QUALITY_SCORES.lookup q).getD 25 then 1
         else if 60 ≤ (QUALITY_SCORES.lookup q).getD 25 then 3/2 else 5/2) * 3 := by
      have hd : (0 : ℚ) ≤ (d - 30) / 10 := by
        apply div_nonneg _ (by norm_num)
        linarith
      have := mul_nonneg (mul_nonneg hd (le_of_lt hmul)) (by norm_num : (0:ℚ) ≤ 3)
      exact this
    refine ⟨fun hle => absurd h30 (not_lt.mpr hle), fun _ => rfl, ?_, min_le_right _ _⟩
    exact le_min (roundTo_nonneg 1 harg) (by norm_num)
  · rw [hpen, if_neg h30]
    exact ⟨fun _ => rfl, fun h => absurd h h30, le_refl 0, by norm_num⟩

theorem analyze_offsets_penalty_formula_witness :
    ("Unverified" ≠ "None")
    ∧ (30 : ℚ) < 50
    ∧ (analyze_offsets 50 "Unverified").dependency_penalty =
        min (roundTo 1 (((50 : ℚ) - 30) / 10 *
          (if 80 ≤ (QUALITY_SCORES.lookup "Unverified").getD 25 then 1
           else if 60 ≤ (QUALITY_SCORES.lookup "Unverified").getD 25 then 3/2 else 5/2) * 3)) 20
    ∧ 0 ≤ (analyze_offsets 50 "Unverified").dependency_penalty
    ∧ (analyze_offsets 50 "Unverified").dependency_penalty ≤ 20 :=
  ⟨by decide, by norm_num,
   (analyze_offsets_penalty_formula "Unverified" 50 (by decide) (by norm_num) (by norm_num)).2.1
     (by norm_num),
   (analyze_offsets_penalty_formula "Unverified" 50 (by decide) (by norm_num) (by norm_num)).2.2.1,
   (analyze_offsets_penalty_formula "Unverified" 50 (by decide) (by norm_num) (by norm_num)).2.2.2⟩

/-- The running bonus fold of `compute_regulatory_bonus` is the sum of the
table bonuses of the standards flagged true. -/
theorem regulatory_fold_eq_sum (a : ℚ) (l : List (String × Bool)) :
    l.foldl (fun bonus sm =>
      if sm.2 then bonus + ((REGULATORY_BONUSES.lookup sm.1).getD 0) else bonus) a
    = a + ((l.filter (fun sm => sm.2)).map
        (fun sm => (REGULATORY_BONUSES.lookup sm.1).getD 0)).sum := by
  induction l generalizing a with
  | nil => simp
  | cons x xs ih =>
    cases hx : x.2 with
    | false => simp [List.foldl_cons, List.filter_cons, hx, ih]
    | true => simp [List.foldl_cons, List.filter_cons, hx, ih]; ring

/-- C7: `compute_regulatory_bonus` returns the sum of the fixed bonuses of
the standards flagged true, capped at 8; with all four standards true the
result is exactly 8, not 9. -/
theorem compute_regulatory_bonus_capped (alignment : List (String × Bool)) :
    compute_regulatory_bonus alignment =
      min (((alignment.filter (fun sm => sm.2)).map
        (fun sm => (REGULATORY_BONUSES.lookup sm.1).getD 0)).sum) 8
    ∧ compute_regulatory_bonus
        [("GRI", true), ("CSRD", true), ("SEC_Climate", true), ("TCFD", true)] = 8 := by
  constructor
  · unfold compute_regulatory_bonus
    rw [regulatory_fold_eq_sum]
    norm_num
  · decide

/-- C8: `compute_drift(X, X)` yields delta 0.0 and trend "stable" for
every pillar; in general the trend is "improved" iff the raw delta
(current − previous) exceeds 2 and "declined" iff it is below −2. -/
theorem compute_drift_roundtrip :
    (∀ (X : List (String × ℚ)) (e : String × DriftEntry), e ∈ compute_drift X X →
      e.2.delta = 0 ∧ e.2.trend = "stable")
    ∧ (∀ (cur prev : List (String × ℚ)) (e : String × DriftEntry),
        e ∈ compute_drift cur prev →
        ((e.2.trend = "improved" ↔ 2 < e.2.current - e.2.previous)
         ∧ (e.2.trend = "declined" ↔ e.2.current - e.2.previous < -2))) := by
  constructor
  · intro X e he
    unfold compute_drift at he
    obtain ⟨pw, hpw, rfl⟩ := List.mem_map.mp he
    dsimp
    rw [sub_self]
    constructor
    · decide
    · decide
  · intro cur prev e he
    unfold compute_drift at he
    obtain ⟨pw, hpw, rfl⟩ := List.mem_map.mp he
    dsimp
    constructor
    · split
      · next h1 => simp [h1]
      · split
        · next h1 h2 =>
            refine ⟨fun h => absurd h (by decide), fun h => absurd h h1⟩
        · next h1 h2 =>
            refine ⟨fun h => absurd h (by decide), fun h => absurd h h1⟩
    · split
      · next h1 =>
          refine ⟨fun h => absurd h (by decide), fun h => by linarith⟩
      · split
        · next h1 h2 => simp [h2]
        · next h1 h2 =>
            refine ⟨fun h => absurd h (by decide), fun h => absurd h h2⟩

theorem compute_drift_roundtrip_witness :
    ((("raw_materials", (⟨50, 50, 0, "stable"⟩ : DriftEntry)) ∈
        compute_drift [("raw_materials", 50)] [("raw_materials", 50)])
    ∧ (⟨50, 50, 0, "stable"⟩ : DriftEntry).delta = 0
    ∧ (⟨50, 50, 0, "stable"⟩ : DriftEntry).trend = "stable") :=
  ⟨by decide,
   (compute_drift_roundtrip.1 [("raw_materials", 50)]
     ("raw_materials", ⟨50, 50, 0, "stable"⟩) (by decide)).1,
   (compute_drift_roundtrip.1 [("raw_materials", 50)]
     ("raw_materials", ⟨50, 50, 0, "stable"⟩) (by decide)).2⟩

/-- C2 counterexample: the text "Model 3 Tesla" (with an empty filename)
contains "Model 3" and "Tesla", its only anchor-or-company hit is "tesla",
yet `_detect_ev_domain` returns is_ev_domain = False, refuting the claim
that company_hits ≥ 1 suffices. -/
theorem detect_ev_domain_model3_tesla_counterexample :
    containsSub "model 3" (evContent "Model 3 Tesla" "") = true
    ∧ containsSub "tesla" (evContent "Model 3 Tesla" "") = true
    ∧ termHits EV_AUTO_ANCHORS (evContent "Model 3 Tesla" "") = []
    ∧ termHits KNOWN_EV_COMPANIES (evContent "Model 3 Tesla" "") = ["tesla"]
    ∧ (detect_ev_domain "Model 3 Tesla" "").is_ev_domain = false := by
  decide

/-- C2 amended: for the text containing "Model 3" and "Tesla" and no other
anchor or known-company term, the detector returns is_ev_domain = False:
although company_hits ≥ 1, the weighted score is 5, below the required 12,
so the two-part gate fails. -/
theorem detect_ev_domain_model3_tesla_amended :
    1 ≤ (termHits KNOWN_EV_COMPANIES (evContent "Model 3 Tesla" "")).length
    ∧ evRelevanceScore (evContent "Model 3 Tesla" "") = 5
    ∧ ¬ (12 ≤ evRelevanceScore (evContent "Model 3 Tesla" ""))
    ∧ (detect_ev_domain "Model 3 Tesla" "").is_ev_domain = false := by
  decide

/-- C3: `_detect_ev_domain` returns is_ev_domain = True iff there is at
least one anchor-list or known-company-list hit AND the weighted relevance
score is ≥ 12; with zero anchor and zero company hits it never returns
True, however large the score. -/
theorem detect_ev_domain_gate (text filename : String) :
    ((detect_ev_domain text filename).is_ev_domain = true ↔
      ((1 ≤ (termHits EV_AUTO_ANCHORS (evContent text filename)).length
        ∨ 1 ≤ (termHits KNOWN_EV_COMPANIES (evContent text filename)).length)
        ∧ 12 ≤ evRelevanceScore (evContent text filename)))
    ∧ ((termHits EV_AUTO_ANCHORS (evContent text filename)).length = 0 →
       (termHits KNOWN_EV_COMPANIES (evContent text filename)).length = 0 →
       (detect_ev_domain text filename).is_ev_domain = false) := by
  have hmain : (detect_ev_domain text filename).is_ev_domain = true ↔
      ((1 ≤ (termHits EV_AUTO_ANCHORS (evContent text filename)).length
        ∨ 1 ≤ (termHits KNOWN_EV_COMPANIES (evContent text filename)).length)
        ∧ 12 ≤ evRelevanceScore (evContent text filename)) := by
    simp [detect_ev_domain]
  refine ⟨hmain, fun ha hc => ?_⟩
  cases hb : (detect_ev_domain text filename).is_ev_domain
  · rfl
  · exfalso
    rcases hmain.mp hb with ⟨h1 | h1, _⟩
    · omega
    · omega

theorem detect_ev_domain_gate_witness :
    (termHits EV_AUTO_ANCHORS (evContent "solar panels" "")).length = 0
    ∧ (termHits KNOWN_EV_COMPANIES (evContent "solar panels" "")).length = 0
    ∧ (detect_ev_domain "solar panels" "").is_ev_domain = false :=
  ⟨by decide, by decide,
   (detect_ev_domain_gate "solar panels" "").2 (by decide) (by decide)⟩

/-- As soon as some offset phrase occurs in the lower-cased text,
`classify_claim` takes its first branch. -/
theorem classify_claim_type_of_offset_any (text : String)
    (hoff : OFFSET_PHRASES.any
      (fun phrase => containsSub (lowerStr phrase) (lowerStr text)) = true) :
    (classify_claim text).type = "OFFSET_BACKED" := by
  cases hfind : OFFSET_PHRASES.find?
      (fun phrase => containsSub (lowerStr phrase) (lowerStr text)) with
  | none =>
      exfalso
      rcases List.any_eq_true.mp hoff with ⟨p, hp, hps⟩
      exact List.find?_eq_none.mp hfind p hp hps
  | some ph =>
      simp [classify_claim, hfind]

/-- C4: `classify_claim` checks offset phrases before numeric patterns:
a sentence containing both an offset phrase and a numeric pattern is
classified OFFSET_BACKED, not NUMERIC. -/
theorem classify_claim_offset_before_numeric (text : String)
    (hoff : OFFSET_PHRASES.any
      (fun phrase => containsSub (lowerStr phrase) (lowerStr text)) = true)
    (hnum : NUMERIC_PATTERNS.any (fun r => reSearch r (lowerStr text)) = true) :
    (classify_claim text).type = "OFFSET_BACKED" :=
  classify_claim_type_of_offset_any text hoff

theorem classify_claim_offset_before_numeric_witness :
    OFFSET_PHRASES.any (fun phrase =>
      containsSub (lowerStr phrase) (lowerStr "We offset 10,000 tonnes of CO2")) = true
    ∧ NUMERIC_PATTERNS.any
        (fun r => reSearch r (lowerStr "We offset 10,000 tonnes of CO2")) = true
    ∧ (classify_claim "We offset 10,000 tonnes of CO2").type = "OFFSET_BACKED" :=
  ⟨by decide, by decide,
   classify_claim_offset_before_numeric "We offset 10,000 tonnes of CO2"
     (by decide) (by decide)⟩

/-- C10: `OFFSET_PHRASES` contains the bare "REC", matched lower-cased as
the substring "rec"; every text whose lower-casing contains "rec" anywhere
(also inside "recycling" or "record") is classified OFFSET_BACKED,
whatever its numeric content. -/
theorem classify_claim_rec_substring (text : String)
    (h : containsSub "rec" (lowerStr text) = true) :
    (classify_claim text).type = "OFFSET_BACKED" := by
  apply classify_claim_type_of_offset_any
  apply List.any_eq_true.mpr
  refine ⟨"REC", by decide, ?_⟩
  have hl : lowerStr "REC" = "rec" := by decide
  rw [hl]
  exact h

theorem classify_claim_rec_substring_witness :
    containsSub "rec" (lowerStr "Our recycling program improved by 30") = true
    ∧ NUMERIC_PATTERNS.any
        (fun r => reSearch r (lowerStr "Our recycling program improved by 30")) = true
    ∧ (classify_claim "Our recycling program improved by 30").type = "OFFSET_BACKED" :=
  ⟨by decide, by decide,
   classify_claim_rec_substring "Our recycling program improved by 30" (by decide)⟩

/-- When every claim's type is one of the three known labels, the counter
fold of `get_claim_quality_ratio` never hits its error branch. -/
theorem counts_fold_isSome (l : List Claim)
    (h : ∀ c ∈ l, c.type = "NUMERIC" ∨ c.type = "VAGUE" ∨ c.type = "OFFSET_BACKED")
    (acc : ℕ × ℕ × ℕ) :
    (l.foldlM (m := Option)
      (fun (c : ℕ × ℕ × ℕ) claim =>
        if claim.type = "NUMERIC" then some (c.1 + 1, c.2.1, c.2.2)
        else if claim.type = "VAGUE" then some (c.1, c.2.1 + 1, c.2.2)
        else if claim.type = "OFFSET_BACKED" then some (c.1, c.2.1, c.2.2 + 1)
        else none)
      acc).isSome = true := by
  induction l generalizing acc with
  | nil => rfl
  | cons x xs ih =>
      have hx := h x (List.mem_cons_self x xs)
      have hrest : ∀ c ∈ xs, c.type = "NUMERIC" ∨ c.type = "VAGUE" ∨ c.type = "OFFSET_BACKED" :=
        fun c hc => h c (List.mem_cons_of_mem x hc)
      rcases hx with hx | hx | hx <;>
        · rw [List.foldlM_cons]
          simp only [hx]
          simp
          exact ih hrest _

/-- Under the same precondition, `get_claim_quality_ratio` itself
succeeds. -/
theorem get_claim_quality_ratio_isSome (claims : List Claim)
    (h : ∀ c ∈ claims, c.type = "NUMERIC" ∨ c.type = "VAGUE" ∨ c.type = "OFFSET_BACKED") :
    (get_claim_quality_ratio claims).isSome = true := by
  unfold get_claim_quality_ratio
  split
  · rfl
  · obtain ⟨counts, hc⟩ := Option.isSome_iff_exists.mp (counts_fold_isSome claims h (0, 0, 0))
    rw [hc]
    rfl

/-- C9: under the precondition that every claim's type is NUMERIC, VAGUE
or OFFSET_BACKED, no error branch of the pipeline is reachable: the
per-type counter lookup succeeds, and `compute_lts` returns a complete
result record. -/
theorem compute_lts_total (d : CompanyData)
    (h : ∀ c ∈ d.claims, c.type = "NUMERIC" ∨ c.type = "VAGUE" ∨ c.type = "OFFSET_BACKED") :
    (get_claim_quality_ratio d.claims).isSome = true
    ∧ (compute_lts d).isSome = true := by
  have h1 := get_claim_quality_ratio_isSome d.claims h
  refine ⟨h1, ?_⟩
  unfold compute_lts
  obtain ⟨ratio, hr⟩ := Option.isSome_iff_exists.mp h1
  rw [hr]
  rfl

theorem compute_lts_total_witness :
    (get_claim_quality_ratio
      [({ text := "Emissions reduced by 30", type := "NUMERIC", verified := true } : Claim),
       { text := "We are committed to a sustainable future", type := "VAGUE" },
       { text := "We purchase carbon offset credits", type := "OFFSET_BACKED" }]).isSome = true
    ∧ (compute_lts
        { claims :=
            [{ text := "Emissions reduced by 30", type := "NUMERIC", verified := true },
             { text := "We are committed to a sustainable future", type := "VAGUE" },
             { text := "We purchase carbon offset credits", type := "OFFSET_BACKED" }] }).isSome = true :=
  compute_lts_total
    { claims :=
        [{ text := "Emissions reduced by 30", type := "NUMERIC", verified := true },
         { text := "We are committed to a sustainable future", type := "VAGUE" },
         { text := "We purchase carbon offset credits", type := "OFFSET_BACKED" }] }
    (by decide)

/-- C1: whenever `compute_lts` returns a result, its final LTS equals the
raw aggregate (pillar total + claim-quality adjustment − offset penalty +
regulatory bonus + grid penalty) clamped to [0,100] and rounded to one
decimal, hence always lies in [0,100]; on the all-100-pillars company with
all four standards met the raw aggregate is 108 but the LTS is exactly
100. -/
theorem compute_lts_clamped :
    (∀ (d : CompanyData) (r : LtsResult), compute_lts d = some r →
      r.lts = roundTo 1 (max 0 (min 100
        (compute_weighted_score d.pillar_scores
          + r.claim_quality_adjustment
          - (analyze_offsets d.offset_dependency d.offset_quality).dependency_penalty
          + compute_regulatory_bonus d.regulatory_alignment
          + grid_penalty_of d.grid_carbon_intensity)))
      ∧ 0 ≤ r.lts ∧ r.lts ≤ 100)
    ∧ (compute_lts fullMarksCompany).map LtsResult.lts = some 100 := by
  have key100 : ∀ x : ℚ, roundTo 1 (max 0 (min 100 x)) ≤ 100 := by
    intro x
    have hb : max 0 (min 100 x) ≤ ((100 : ℤ) : ℚ) := by
      push_cast
      exact max_le (by norm_num) (min_le_left _ _)
    have := roundTo_le_of_le 1 hb
    simpa using this
  have key0 : ∀ x : ℚ, 0 ≤ roundTo 1 (max 0 (min 100 x)) := by
    intro x
    exact roundTo_nonneg 1 (le_max_left 0 _)
  constructor
  · intro d r h
    unfold compute_lts at h
    cases hr : get_claim_quality_ratio d.claims with
    | none => rw [hr] at h; exact absurd h (by simp)
    | some ratio =>
        rw [hr] at h
        dsimp only at h
        injection h with h
        subst h
        exact ⟨rfl, key0 _, key100 _⟩
  · decide

theorem compute_lts_clamped_witness :
    compute_lts defaultCompany = some defaultLtsResult
    ∧ 0 ≤ defaultLtsResult.lts ∧ defaultLtsResult.lts ≤ 100
    ∧ defaultLtsResult.lts = roundTo 1 (max 0 (min 100
        (compute_weighted_score defaultCompany.pillar_scores
          + defaultLtsResult.claim_quality_adjustment
          - (analyze_offsets defaultCompany.offset_dependency
              defaultCompany.offset_quality).dependency_penalty
          + compute_regulatory_bonus defaultCompany.regulatory_alignment
          + grid_penalty_of defaultCompany.grid_carbon_intensity))) :=
  ⟨by decide,
   (compute_lts_clamped.1 defaultCompany defaultLtsResult (by decide)).2.1,
   (compute_lts_clamped.1 defaultCompany defaultLtsResult (by decide)).2.2,
   (compute_lts_clamped.1 defaultCompany defaultLtsResult (by decide)).1⟩

end AutoTruth
